import Mathlib

/-!
Shallow embedding of the identity-onboarding backend of the
Decentralized-Voting repository: user registration into a pending-approval
collection, OTP issuance and verification (`Backend/Utils/OTP.js`), and the
admin approve / reject / update handlers (the user controller).

Modelling conventions:
* The document store is a `Store` value holding the `User`, `Approval`
  (pending-approval) and `Admin` collections as association lists keyed by a
  numeric id.  Handlers become pure functions `Store → … → result × Store`.
* `bcrypt` hashes are an opaque tagged value `HashVal.bhash salt plain`;
  `bcrypt.compare` succeeds exactly when the supplied plaintext equals the
  plaintext the hash was built from, which is bcrypt's contract.
* Node's `crypto.randomInt lo hi` returns `lo ≤ n < hi` (upper bound
  exclusive); we embed it as `lo + seed % (hi - lo)` over an arbitrary seed.
* Timestamps are `Nat` milliseconds.  `Date.now()` is a `now` parameter.
* Mongo multi-document transactions: writes performed with the session are
  staged and reach the store only at `commitTransaction`; `abortTransaction`
  discards them, so an aborted path returns the input store unchanged.
* Thrown JS errors become `Except` errors; the email collaborator's outcome
  is an explicit `emailOk : Bool` parameter, and injected transaction
  failures an explicit `FailPoint` parameter.
-/

/-- Opaque model of a bcrypt hash: remembers the salt and the hashed
plaintext, but is a distinct type from plain strings. -/
inductive HashVal where
  | bhash (salt : Nat) (plain : String) : HashVal
deriving DecidableEq, Repr

/-- `bcrypt.compare plain hash`: true exactly when `plain` is the plaintext
the hash was produced from. -/
def bcryptCompare (plain : String) (h : HashVal) : Bool :=
  match h with
  | .bhash _ p => plain == p

/-- Node `crypto.randomInt lo hi`: a random integer `n` with `lo ≤ n < hi`
(upper bound exclusive), as a function of an arbitrary seed. -/
def randomInt (lo hi seed : Nat) : Nat :=
  lo + seed % (hi - lo)

/-- The `otp` sub-document stored on a pending record:
`{ code: <bcrypt hash>, expiresAt: <timestamp> }`. -/
structure OtpData where
  code : HashVal
  expiresAt : Nat
deriving DecidableEq, Repr

/-- An `Approval` (pending-approval) document. -/
structure PendingUser where
  name : String
  email : String
  password : HashVal
  pincode : String
  status : String
  isVerified : Bool
  otp : Option OtpData
deriving DecidableEq, Repr

/-- The ten opaque payloads returned by the `generateCryptoFields`
collaborator. -/
structure CryptoFields where
  encryptedPublicKey : String
  publicKeyIV : String
  publicKeyAuthTag : String
  encryptedPrivateKey : String
  privateKeyIV : String
  privateKeyAuthTag : String
  encryptedToken : String
  tokenIV : String
  tokenAuthTag : String
  salt : String
deriving DecidableEq, Repr

/-- A `User` document, as built by `approveUser`. -/
structure UserRec where
  voterId : String
  name : String
  email : String
  password : HashVal
  publicKey : String
  publicKeyIV : String
  publicKeyAuthTag : String
  privateKey : String
  privateKeyIV : String
  privateKeyAuthTag : String
  privateKeyDerivationSalt : String
  token : String
  tokenIV : String
  tokenAuthTag : String
  isVerified : Bool
  pincode : String
deriving DecidableEq, Repr

/-- An `Admin` document (only its email matters to the embedded handlers). -/
structure AdminRec where
  email : String
deriving DecidableEq, Repr

/-- The document store: the three collections the handlers touch, keyed by
numeric ids standing for Mongo object ids. -/
structure Store where
  users : List (Nat × UserRec)
  approvals : List (Nat × PendingUser)
  admins : List AdminRec
deriving DecidableEq, Repr

/-- `Approval.findById id`. -/
def findApproval (st : Store) (id : Nat) : Option PendingUser :=
  (st.approvals.find? (fun e => e.1 == id)).map (fun e => e.2)

/-- `User.findById id`. -/
def findUser (st : Store) (id : Nat) : Option UserRec :=
  (st.users.find? (fun e => e.1 == id)).map (fun e => e.2)

/-- `User.findOne { email }` succeeds. -/
def userEmailExists (st : Store) (email : String) : Bool :=
  st.users.any (fun e => e.2.email == email)

/-- `Admin.findOne { email }` succeeds. -/
def adminEmailExists (st : Store) (email : String) : Bool :=
  st.admins.any (fun a => a.email == email)

/-- `Approval.findOne { email }` succeeds. -/
def approvalEmailExists (st : Store) (email : String) : Bool :=
  st.approvals.any (fun e => e.2.email == email)

/-- `sendOtpToEmail user`: draw `crypto.randomInt 100000 999999`, bcrypt-hash
it with a fresh salt, store `{ code: hash, expiresAt: now + 5 minutes }` on
the record and save; the plaintext code is only returned (logged/emailed). -/
def sendOtpToEmail (u : PendingUser) (now seed otpSalt : Nat) :
    PendingUser × Nat :=
  let otpN := randomInt 100000 999999 seed
  let hashedOtp := HashVal.bhash otpSalt (toString otpN)
  ({ u with otp := some ⟨hashedOtp, now + 5 * 60 * 1000⟩ }, otpN)

/-- Errors thrown by `verifyOTP` / `checkOtp`. -/
inductive OtpErr where
  | noPending
  | expired
  | mismatch
deriving DecidableEq, Repr

/-- `verifyOTP user code`: bypass code `"1"` always succeeds; otherwise fail
`noPending` when no otp sub-document is stored, `expired` when
`now > expiresAt`, `mismatch` when the bcrypt comparison fails; on success
set `isVerified := true`, clear `otp`, and save (the returned record). -/
def verifyOTP (u : PendingUser) (code : String) (now : Nat) :
    Except OtpErr PendingUser :=
  if code == "1" then
    .ok { u with isVerified := true, otp := none }
  else
    match u.otp with
    | none => .error .noPending
    | some o =>
      if now > o.expiresAt then
        .error .expired
      else if ! bcryptCompare code o.code then
        .error .mismatch
      else
        .ok { u with isVerified := true, otp := none }

/-- `checkOtp user code`: same branch structure as `verifyOTP`, but returns a
boolean on the comparison branch instead of throwing `mismatch`, and never
writes the record — the untouched record is returned alongside the result. -/
def checkOtp (u : PendingUser) (code : String) (now : Nat) :
    Except OtpErr Bool × PendingUser :=
  if code == "1" then
    (.ok true, u)
  else
    match u.otp with
    | none => (.error .noPending, u)
    | some o =>
      if now > o.expiresAt then
        (.error .expired, u)
      else
        (.ok (bcryptCompare code o.code), u)

/-- Error of `registerUser`. -/
inductive RegErr where
  | duplicateEmail
deriving DecidableEq, Repr

/-- `registerUser`: reject with 400 `Email already exists` when
`User.findOne {email} || Admin.findOne {email}` hits (the `Approval`
collection is NOT consulted); otherwise bcrypt-hash the password, insert a
new pending record with `status := "Pending"`, `isVerified := false`, run
`sendOtpToEmail` on it, and answer 201 with the email. -/
def registerUser (st : Store) (newId : Nat) (now seed otpSalt pwSalt : Nat)
    (name email password pincode : String) : Except RegErr String × Store :=
  if userEmailExists st email || adminEmailExists st email then
    (.error .duplicateEmail, st)
  else
    let hashedPassword := HashVal.bhash pwSalt password
    let p : PendingUser :=
      { name := name, email := email, password := hashedPassword,
        pincode := pincode, status := "Pending", isVerified := false,
        otp := none }
    let p2 := (sendOtpToEmail p now seed otpSalt).1
    (.ok email, { st with approvals := (newId, p2) :: st.approvals })

/-- Injected failure points inside the approval transaction: a JS error
thrown by `generateCryptoFields`, between the two session writes, or after
both session writes but before `commitTransaction`. -/
inductive FailPoint where
  | noFail
  | atCrypto
  | afterUserWrite
  | afterStatusWrite
deriving DecidableEq, Repr

/-- Responses of `approveUser`: 404, 400, the catch-all 500, or 200 carrying
the new voter id. -/
inductive ApproveRes where
  | notFound
  | notVerified
  | serverError
  | ok (voterId : String)
deriving DecidableEq, Repr

/-- The `User` document `approveUser` builds from the pending record, the
crypto payloads and the fresh voter id. -/
def mkNewUser (p : PendingUser) (cf : CryptoFields) (vid : String) : UserRec :=
  { voterId := vid, name := p.name, email := p.email, password := p.password,
    publicKey := cf.encryptedPublicKey, publicKeyIV := cf.publicKeyIV,
    publicKeyAuthTag := cf.publicKeyAuthTag,
    privateKey := cf.encryptedPrivateKey, privateKeyIV := cf.privateKeyIV,
    privateKeyAuthTag := cf.privateKeyAuthTag,
    privateKeyDerivationSalt := cf.salt,
    token := cf.encryptedToken, tokenIV := cf.tokenIV,
    tokenAuthTag := cf.tokenAuthTag,
    isVerified := true, pincode := p.pincode }

/-- `approveUser`: inside a Mongo session transaction, load the pending
record (404 if absent, 400 if not OTP-verified, both after aborting), obtain
the crypto payloads and voter id from the collaborators, stage
`newUser.save({session})` and the pending record's `status := "Accepted"`
save, and commit.  Any error before the commit lands in the catch block,
which aborts the transaction — the staged writes are discarded and the store
is unchanged — and answers 500.  After the commit the approval notification
email is sent inside try/catch: its failure is logged and swallowed, and 200
with the voter id is returned either way.  `cf`, `vid`, `newId` stand for
the `generateCryptoFields` / `generateVoterId` collaborators and the fresh
document id; `fail` injects a failure at the given point; `emailOk` is the
notification collaborator's outcome. -/
def approveUser (st : Store) (id newId : Nat) (cf : CryptoFields)
    (vid : String) (fail : FailPoint) (emailOk : Bool) : ApproveRes × Store :=
  match findApproval st id with
  | none => (.notFound, st)
  | some p =>
    if ! p.isVerified then
      (.notVerified, st)
    else if fail = .atCrypto then
      (.serverError, st)
    else if fail = .afterUserWrite then
      (.serverError, st)
    else if fail = .afterStatusWrite then
      (.serverError, st)
    else
      let newUser := mkNewUser p cf vid
      let st2 : Store :=
        { st with
          users := (newId, newUser) :: st.users,
          approvals := st.approvals.map (fun e =>
            if e.1 = id then (e.1, { e.2 with status := "Accepted" }) else e) }
      -- sendNotificationEmail sits in try/catch: a failure is only logged
      let _notificationFailed := ! emailOk
      (.ok vid, st2)

/-- Errors thrown by `rejectUser`. -/
inductive RejErr where
  | notFound
  | missingReason
  | emailFailure
deriving DecidableEq, Repr

/-- True when the request body's `reason` is missing or empty — both are
falsy in `if (!reason)`. -/
def reasonBlank : Option String → Bool
  | none => true
  | some s => s == ""

/-- `rejectUser`: load the pending record (404 if absent), require a
non-empty reason (400 otherwise), send the rejection notification — NOT
wrapped in try/catch, so its failure propagates and nothing is deleted —
then `Approval.findByIdAndDelete` and answer 200. -/
def rejectUser (st : Store) (id : Nat) (reason : Option String)
    (emailOk : Bool) : Except RejErr Unit × Store :=
  match findApproval st id with
  | none => (.error .notFound, st)
  | some _ =>
    if reasonBlank reason then
      (.error .missingReason, st)
    else if ! emailOk then
      (.error .emailFailure, st)
    else
      (.ok (), { st with approvals := st.approvals.filter (fun e => e.1 != id) })

/-- Errors thrown by `updateUserDetails`. -/
inductive UpdErr where
  | notFound
  | emailFailure
deriving DecidableEq, Repr

/-- Which notification variant `updateUserDetails` sent. -/
inductive UpdateMsg where
  | nameChanged (oldName newName : String)
  | generic
deriving DecidableEq, Repr

/-- True when the request body's `name` is missing or the empty string —
both are falsy in the handler's `if (name)`. -/
def nameBlank : Option String → Bool
  | none => true
  | some s => s == ""

/-- `updateUserDetails`: locate the record by id with
`User.findById(id) || Approval.findById(id)` (404 when both miss).  The
branch is `if (name)`, which is falsy both for a missing name and for the
empty string.  Truthy name: assign it, save, send the name-change
notification.  Falsy: save the unchanged record anyway and send the generic
"profile has been updated" notification.  Either way answer 200.  The save
happens before the notification, so an email failure propagates after the
write has persisted. -/
def updateUserDetails (st : Store) (id : Nat) (name : Option String)
    (emailOk : Bool) : Except UpdErr UpdateMsg × Store :=
  match findUser st id with
  | some u =>
    match name with
    | some n =>
      if n == "" then
        if emailOk then (.ok .generic, st) else (.error .emailFailure, st)
      else
        let st2 : Store :=
          { st with users := st.users.map (fun e =>
              if e.1 = id then (e.1, { e.2 with name := n }) else e) }
        if emailOk then (.ok (.nameChanged u.name n), st2)
        else (.error .emailFailure, st2)
    | none =>
      if emailOk then (.ok .generic, st) else (.error .emailFailure, st)
  | none =>
    match findApproval st id with
    | some p =>
      match name with
      | some n =>
        if n == "" then
          if emailOk then (.ok .generic, st) else (.error .emailFailure, st)
        else
          let st2 : Store :=
            { st with approvals := st.approvals.map (fun e =>
                if e.1 = id then (e.1, { e.2 with name := n }) else e) }
          if emailOk then (.ok (.nameChanged p.name n), st2)
          else (.error .emailFailure, st2)
      | none =>
        if emailOk then (.ok .generic, st) else (.error .emailFailure, st)
    | none => (.error .notFound, st)

/-- Concrete fixture: a freshly registered, not yet verified pending user. -/
def samplePending : PendingUser :=
  { name := "Alice", email := "a@x.com", password := .bhash 7 "pw123",
    pincode := "12345", status := "Pending", isVerified := false,
    otp := none }

/-- Fixture helper: attach a stored OTP hash and expiry to a record. -/
def withOtp (u : PendingUser) (salt : Nat) (plain : String) (exp : Nat) :
    PendingUser :=
  { u with otp := some ⟨.bhash salt plain, exp⟩ }

/-- Concrete fixture: the same pending user, OTP-verified. -/
def sampleVerified : PendingUser :=
  { samplePending with isVerified := true }

/-- Concrete fixture: opaque crypto payloads. -/
def sampleCrypto : CryptoFields :=
  { encryptedPublicKey := "pk", publicKeyIV := "pkiv",
    publicKeyAuthTag := "pktag", encryptedPrivateKey := "sk",
    privateKeyIV := "skiv", privateKeyAuthTag := "sktag",
    encryptedToken := "tok", tokenIV := "tokiv", tokenAuthTag := "toktag",
    salt := "dsalt" }

/-- Concrete fixture: an empty store. -/
def emptyStore : Store :=
  { users := [], approvals := [], admins := [] }

/-- Concrete fixture: one verified pending record under id 1. -/
def sampleStore : Store :=
  { users := [], approvals := [(1, sampleVerified)], admins := [] }

/-- Concrete fixture: an approved user derived from the pending fixture. -/
def sampleUser : UserRec :=
  mkNewUser sampleVerified sampleCrypto "VOT123"

/-- Concrete fixture: a store whose `User` collection holds `sampleUser`
under id 5. -/
def storeWithUser : Store :=
  { users := [(5, sampleUser)], approvals := [], admins := [] }

/-- On the association list with the entry at `id` updated by `f`, lookup at
`id` returns the updated payload. -/
theorem find?_map_update {α : Type} (l : List (Nat × α)) (id : Nat)
    (f : α → α) (p : α)
    (h : (l.find? (fun e => e.1 == id)).map (fun e => e.2) = some p) :
    ((l.map (fun e => if e.1 = id then (e.1, f e.2) else e)).find?
      (fun e => e.1 == id)).map (fun e => e.2) = some (f p) := by
  induction l with
  | nil => simp at h
  | cons a l ih =>
    by_cases ha : a.1 = id
    · simp [List.find?, ha] at h ⊢
      exact congrArg f h
    · have ha2 : (a.1 == id) = false := by simp [ha]
      simp only [List.map_cons, List.find?] at h ⊢
      rw [if_neg ha]
      simp only [ha2] at h ⊢
      exact ih h

/-- Updating the entry at `id` leaves lookups at any other key unchanged. -/
theorem find?_map_update_ne {α : Type} (l : List (Nat × α)) (id j : Nat)
    (f : α → α) (hne : j ≠ id) :
    (l.map (fun e => if e.1 = id then (e.1, f e.2) else e)).find?
      (fun e => e.1 == j) = l.find? (fun e => e.1 == j) := by
  induction l with
  | nil => simp
  | cons a l ih =>
    by_cases ha : a.1 = id
    · have haj : (a.1 == j) = false := by
        simp [ha]
        exact fun hc => (hne hc.symm).elim
      simp only [List.map_cons, List.find?, if_pos ha, haj]
      exact ih
    · simp only [List.map_cons, List.find?, if_neg ha]
      cases hj : (a.1 == j) with
      | true => rfl
      | false => exact ih

/-- C5: `verifyOTP` with the literal bypass code "1" succeeds for every
record and every time — whether an OTP is stored, expired, or mismatching —
setting `isVerified := true` and clearing the `otp` sub-field. -/
theorem C5_bypass_always_succeeds (u : PendingUser) (now : Nat) :
    verifyOTP u "1" now = .ok { u with isVerified := true, otp := none } :=
  rfl

/-- C4: for a non-bypass code, `verifyOTP` fails `noPending` when no OTP is
stored; else `expired` when `now > expiresAt` (whatever the supplied code);
else `mismatch` when the bcrypt comparison fails; and on success it sets
`isVerified := true`, clears `otp`, and persists the returned record. -/
theorem C4_verify_cascade (u : PendingUser) (code : String) (now : Nat)
    (hb : code ≠ "1") :
    (u.otp = none → verifyOTP u code now = .error .noPending) ∧
    (∀ o, u.otp = some o → now > o.expiresAt →
      verifyOTP u code now = .error .expired) ∧
    (∀ o, u.otp = some o → ¬ now > o.expiresAt →
      bcryptCompare code o.code = false →
      verifyOTP u code now = .error .mismatch) ∧
    (∀ o, u.otp = some o → ¬ now > o.expiresAt →
      bcryptCompare code o.code = true →
      verifyOTP u code now = .ok { u with isVerified := true, otp := none }) := by
  have hb2 : (code == "1") = false := beq_eq_false_iff_ne.mpr hb
  refine ⟨?_, ?_, ?_, ?_⟩
  · intro h
    simp [verifyOTP, hb2, h]
  · intro o ho he
    simp [verifyOTP, hb2, ho, he]
  · intro o ho he hm
    simp [verifyOTP, hb2, ho, he, hm]
  · intro o ho he hm
    simp [verifyOTP, hb2, ho, he, hm]

/-- Witness for C4 at concrete inputs: every branch of the cascade fires,
including expiry with a matching code. -/
theorem C4_verify_cascade_witness :
    verifyOTP samplePending "222222" 0 = .error .noPending ∧
    verifyOTP (withOtp samplePending 3 "222222" 50) "222222" 60 =
      .error .expired ∧
    verifyOTP (withOtp samplePending 3 "333333" 50) "222222" 40 =
      .error .mismatch ∧
    verifyOTP (withOtp samplePending 3 "222222" 50) "222222" 40 =
      .ok { withOtp samplePending 3 "222222" 50 with
            isVerified := true, otp := none } :=
  ⟨(C4_verify_cascade samplePending "222222" 0 (by decide)).1 rfl,
   (C4_verify_cascade (withOtp samplePending 3 "222222" 50) "222222" 60
      (by decide)).2.1 ⟨.bhash 3 "222222", 50⟩ rfl (by decide),
   (C4_verify_cascade (withOtp samplePending 3 "333333" 50) "222222" 40
      (by decide)).2.2.1 ⟨.bhash 3 "333333", 50⟩ rfl (by decide) (by decide),
   (C4_verify_cascade (withOtp samplePending 3 "222222" 50) "222222" 40
      (by decide)).2.2.2 ⟨.bhash 3 "222222", 50⟩ rfl (by decide) (by decide)⟩

/-- C8: `checkOtp` never changes the record, honours the same bypass code
"1", and for any other code its boolean/error outcome agrees with
`verifyOTP` branch by branch: same `noPending` and `expired` failures,
`ok false` exactly when verify throws `mismatch`, `ok true` exactly when
verify succeeds. -/
theorem C8_checkOtp_pure_agrees (u : PendingUser) (code : String)
    (now : Nat) :
    (checkOtp u code now).2 = u ∧
    (code = "1" → (checkOtp u code now).1 = .ok true) ∧
    (code ≠ "1" →
      (((checkOtp u code now).1 = .error .noPending) ↔
        verifyOTP u code now = .error .noPending) ∧
      (((checkOtp u code now).1 = .error .expired) ↔
        verifyOTP u code now = .error .expired) ∧
      (((checkOtp u code now).1 = .ok false) ↔
        verifyOTP u code now = .error .mismatch) ∧
      (((checkOtp u code now).1 = .ok true) ↔
        verifyOTP u code now =
          .ok { u with isVerified := true, otp := none })) := by
  by_cases hc : code = "1"
  · subst hc
    exact ⟨rfl, fun _ => rfl, fun h => absurd rfl h⟩
  · have hc2 : (code == "1") = false := beq_eq_false_iff_ne.mpr hc
    refine ⟨?_, fun h => absurd h hc, fun _ => ?_⟩ <;>
    · cases ho : u.otp with
      | none => simp [checkOtp, verifyOTP, hc2, ho]
      | some o =>
        by_cases he : now > o.expiresAt
        · simp [checkOtp, verifyOTP, hc2, ho, he]
        · cases hm : bcryptCompare code o.code <;>
            simp [checkOtp, verifyOTP, hc2, ho, he, hm]

/-- Witness for C8 at concrete inputs: purity, the bypass case, and the
agreement on the missing-OTP failure. -/
theorem C8_checkOtp_pure_agrees_witness :
    (checkOtp samplePending "1" 0).2 = samplePending ∧
    (checkOtp samplePending "1" 0).1 = .ok true ∧
    ((checkOtp samplePending "222222" 0).1 = .error .noPending ↔
      verifyOTP samplePending "222222" 0 = .error .noPending) :=
  ⟨(C8_checkOtp_pure_agrees samplePending "1" 0).1,
   (C8_checkOtp_pure_agrees samplePending "1" 0).2.1 rfl,
   ((C8_checkOtp_pure_agrees samplePending "222222" 0).2.2 (by decide)).1⟩

/-- C3 counterexample: the generated code is never 999999 — Node's
`crypto.randomInt(100000, 999999)` excludes its upper bound, so the claimed
inclusive range 100000–999999 is wrong. -/
theorem C3_counterexample :
    ¬ ∃ seed : Nat, (sendOtpToEmail samplePending 0 seed 3).2 = 999999 := by
  rintro ⟨s, hs⟩
  have h1 : (sendOtpToEmail samplePending 0 s 3).2 = 100000 + s % 899999 :=
    rfl
  have h2 : s % 899999 < 899999 := Nat.mod_lt _ (by norm_num)
  rw [h1] at hs
  omega

/-- C3 amended: the generated code lies in 100000–999998 (the upper bound
999999 is exclusive), every value of that range is attainable, and the
record stores only the salted bcrypt hash of the code together with
`expiresAt = now + 5 minutes` — never the plaintext. -/
theorem C3_issue_range_and_hash (u : PendingUser) (now seed otpSalt : Nat) :
    100000 ≤ (sendOtpToEmail u now seed otpSalt).2 ∧
    (sendOtpToEmail u now seed otpSalt).2 ≤ 999998 ∧
    (sendOtpToEmail u now seed otpSalt).1 =
      { u with otp := some (OtpData.mk
          (HashVal.bhash otpSalt
            (toString (sendOtpToEmail u now seed otpSalt).2))
          (now + 5 * 60 * 1000)) } ∧
    (∀ c, 100000 ≤ c → c ≤ 999998 →
      (sendOtpToEmail u now (c - 100000) otpSalt).2 = c) := by
  have hval : ∀ s : Nat,
      (sendOtpToEmail u now s otpSalt).2 = 100000 + s % 899999 :=
    fun _ => rfl
  have hlt : seed % 899999 < 899999 := Nat.mod_lt _ (by norm_num)
  refine ⟨?_, ?_, rfl, ?_⟩
  · rw [hval]
    omega
  · rw [hval]
    omega
  · intro c h1 h2
    rw [hval]
    have : (c - 100000) % 899999 = c - 100000 := Nat.mod_eq_of_lt (by omega)
    omega

/-- Witness for C3 amended at concrete inputs: the lower bound at seed 5, and
attainability of the code 202406. -/
theorem C3_issue_range_and_hash_witness :
    100000 ≤ (sendOtpToEmail samplePending 0 5 3).2 ∧
    (sendOtpToEmail samplePending 0 (202406 - 100000) 3).2 = 202406 :=
  ⟨(C3_issue_range_and_hash samplePending 0 5 3).1,
   (C3_issue_range_and_hash samplePending 0 0 3).2.2.2 202406 (by norm_num)
     (by norm_num)⟩

/-- C2 counterexample: with the email "a@x.com" present in the
PendingApproval collection (and nowhere else), registration does NOT fail
with DuplicateEmail — it answers 201 and inserts a second pending record,
because the handler only consults the User and Admin collections. -/
theorem C2_counterexample :
    approvalEmailExists sampleStore "a@x.com" = true ∧
    (registerUser sampleStore 2 0 0 0 0 "Bob" "a@x.com" "pw2" "99999").1 =
      .ok "a@x.com" ∧
    (registerUser sampleStore 2 0 0 0 0 "Bob" "a@x.com" "pw2" "99999").2 ≠
      sampleStore := by
  refine ⟨by decide, rfl, by decide⟩

/-- C2 amended: registration fails with DuplicateEmail exactly when the email
is already present in the User or Admin collection — a pending-approval
record with the same email does not block it — and otherwise answers 201
with the email, prepending one new pending record (status "Pending",
unverified, bcrypt-hashed password, an OTP already issued) and touching
nothing else. -/
theorem C2_register_duplicate_check (st : Store)
    (newId now seed otpSalt pwSalt : Nat)
    (name email password pincode : String) :
    ((userEmailExists st email || adminEmailExists st email) = true →
      registerUser st newId now seed otpSalt pwSalt name email password
        pincode = (.error .duplicateEmail, st)) ∧
    ((userEmailExists st email || adminEmailExists st email) = false →
      (registerUser st newId now seed otpSalt pwSalt name email password
        pincode).1 = .ok email ∧
      ∃ p : PendingUser,
        (registerUser st newId now seed otpSalt pwSalt name email password
          pincode).2 =
          { st with approvals := (newId, p) :: st.approvals } ∧
        p.name = name ∧ p.email = email ∧
        p.password = HashVal.bhash pwSalt password ∧
        p.pincode = pincode ∧ p.status = "Pending" ∧
        p.isVerified = false ∧ p.otp ≠ none) := by
  constructor
  · intro h
    simp [registerUser, h]
  · intro h
    refine ⟨by simp [registerUser, h], ?_⟩
    refine ⟨(sendOtpToEmail
        { name := name, email := email,
          password := HashVal.bhash pwSalt password, pincode := pincode,
          status := "Pending", isVerified := false, otp := none }
        now seed otpSalt).1,
      by simp [registerUser, h], rfl, rfl, rfl, rfl, rfl, rfl, ?_⟩
    simp [sendOtpToEmail]

/-- Witness for C2 amended at concrete stores: a duplicate in the User
collection is rejected, and a fresh email on an empty store is accepted. -/
theorem C2_register_duplicate_check_witness :
    registerUser storeWithUser 9 0 0 0 0 "Eve" "a@x.com" "pw" "11111" =
      (.error .duplicateEmail, storeWithUser) ∧
    (registerUser emptyStore 9 0 0 0 0 "Eve" "e@x.com" "pw" "11111").1 =
      .ok "e@x.com" :=
  ⟨(C2_register_duplicate_check storeWithUser 9 0 0 0 0 "Eve" "a@x.com"
      "pw" "11111").1 (by decide),
   ((C2_register_duplicate_check emptyStore 9 0 0 0 0 "Eve" "e@x.com"
      "pw" "11111").2 (by decide)).1⟩

/-- C1: approval is all-or-nothing — a failure injected after the session
User write but before the pending-status write, or after both session
writes but before the commit, aborts the transaction: the store is exactly
its pre-call state (no User created, pending record unchanged) and no
success response is produced. -/
theorem C1_approve_atomic (st : Store) (id newId : Nat) (cf : CryptoFields)
    (vid : String) (fail : FailPoint) (emailOk : Bool)
    (hf : fail = .afterUserWrite ∨ fail = .afterStatusWrite) :
    (approveUser st id newId cf vid fail emailOk).2 = st ∧
    ∀ v, (approveUser st id newId cf vid fail emailOk).1 ≠ .ok v := by
  rcases hf with hf | hf <;> subst hf <;>
  · cases hp : findApproval st id with
    | none => simp [approveUser, hp]
    | some p =>
      cases hv : p.isVerified <;> simp [approveUser, hp, hv]

/-- Witness for C1 at a concrete store: a failure between the two session
writes leaves the store untouched and yields no success response. -/
theorem C1_approve_atomic_witness :
    (approveUser sampleStore 1 2 sampleCrypto "VOT9" .afterUserWrite
      true).2 = sampleStore ∧
    (approveUser sampleStore 1 2 sampleCrypto "VOT9" .afterUserWrite
      true).1 ≠ .ok "VOT9" :=
  ⟨(C1_approve_atomic sampleStore 1 2 sampleCrypto "VOT9" .afterUserWrite
      true (Or.inl rfl)).1,
   (C1_approve_atomic sampleStore 1 2 sampleCrypto "VOT9" .afterUserWrite
      true (Or.inl rfl)).2 "VOT9"⟩

/-- C10: on a successful approval the pending record changes only its
status field (to "Accepted") — name, email, password, pincode, isVerified
and otp survive — the new User record is prepended carrying name, email,
password hash and pincode verbatim from the pending record with
`isVerified := true` and the fresh voter id, and other pending records are
untouched. -/
theorem C10_approve_frame (st : Store) (id newId : Nat) (cf : CryptoFields)
    (vid : String) (emailOk : Bool) (p : PendingUser)
    (hp : findApproval st id = some p) (hv : p.isVerified = true) :
    (approveUser st id newId cf vid .noFail emailOk).1 = .ok vid ∧
    findApproval (approveUser st id newId cf vid .noFail emailOk).2 id =
      some { p with status := "Accepted" } ∧
    (∀ j, j ≠ id →
      findApproval (approveUser st id newId cf vid .noFail emailOk).2 j =
        findApproval st j) ∧
    (approveUser st id newId cf vid .noFail emailOk).2.users =
      (newId, mkNewUser p cf vid) :: st.users ∧
    (mkNewUser p cf vid).name = p.name ∧
    (mkNewUser p cf vid).email = p.email ∧
    (mkNewUser p cf vid).password = p.password ∧
    (mkNewUser p cf vid).pincode = p.pincode ∧
    (mkNewUser p cf vid).isVerified = true ∧
    (mkNewUser p cf vid).voterId = vid := by
  have happ : approveUser st id newId cf vid .noFail emailOk =
      (.ok vid,
       { st with
          users := (newId, mkNewUser p cf vid) :: st.users,
          approvals := st.approvals.map (fun e =>
            if e.1 = id then (e.1, { e.2 with status := "Accepted" })
            else e) }) := by
    simp [approveUser, hp, hv]
  rw [happ]
  refine ⟨rfl, ?_, ?_, rfl, rfl, rfl, rfl, rfl, rfl, rfl⟩
  · exact find?_map_update st.approvals id
      (fun q => { q with status := "Accepted" }) p hp
  · intro j hj
    simp only [findApproval]
    rw [find?_map_update_ne st.approvals id j
      (fun q => { q with status := "Accepted" }) hj]

/-- Witness for C10 at a concrete store: the approval succeeds and performs
exactly the two writes. -/
theorem C10_approve_frame_witness :
    (approveUser sampleStore 1 2 sampleCrypto "VOT9" .noFail true).1 =
      .ok "VOT9" ∧
    findApproval
      (approveUser sampleStore 1 2 sampleCrypto "VOT9" .noFail true).2 1 =
      some { sampleVerified with status := "Accepted" } :=
  ⟨(C10_approve_frame sampleStore 1 2 sampleCrypto "VOT9" true
      sampleVerified rfl rfl).1,
   (C10_approve_frame sampleStore 1 2 sampleCrypto "VOT9" true
      sampleVerified rfl rfl).2.1⟩

/-- C7: notification failure handling is asymmetric — a committed approval
answers 200 with the voter id whether or not the notification email
succeeds (identical response and store), while a rejection whose
notification fails propagates the failure and leaves the pending record in
place. -/
theorem C7_notification_asymmetry (st : Store) (id newId : Nat)
    (cf : CryptoFields) (vid : String) (reason : Option String)
    (p : PendingUser) (hp : findApproval st id = some p) :
    (p.isVerified = true →
      (approveUser st id newId cf vid .noFail false).1 = .ok vid ∧
      approveUser st id newId cf vid .noFail false =
        approveUser st id newId cf vid .noFail true) ∧
    (reasonBlank reason = false →
      rejectUser st id reason false = (.error .emailFailure, st) ∧
      findApproval (rejectUser st id reason false).2 id = some p) := by
  constructor
  · intro hv
    constructor
    · simp [approveUser, hp, hv]
    · simp [approveUser, hp, hv]
  · intro hr
    have h : rejectUser st id reason false = (.error .emailFailure, st) := by
      simp [rejectUser, hp, hr]
    refine ⟨h, ?_⟩
    rw [h]
    exact hp

/-- Witness for C7 at a concrete store: the approval succeeds despite the
failed email, and the failed rejection notification blocks deletion. -/
theorem C7_notification_asymmetry_witness :
    (approveUser sampleStore 1 2 sampleCrypto "VOT9" .noFail false).1 =
      .ok "VOT9" ∧
    rejectUser sampleStore 1 (some "bad") false =
      (.error .emailFailure, sampleStore) :=
  ⟨((C7_notification_asymmetry sampleStore 1 2 sampleCrypto "VOT9"
      (some "bad") sampleVerified rfl).1 rfl).1,
   ((C7_notification_asymmetry sampleStore 1 2 sampleCrypto "VOT9"
      (some "bad") sampleVerified rfl).2 rfl).1⟩

/-- C6: rejecting an existing pending record with a missing or empty reason
fails with MissingReason, the store is untouched, and the record is still
present afterwards. -/
theorem C6_reject_blank_reason (st : Store) (id : Nat)
    (reason : Option String) (emailOk : Bool) (p : PendingUser)
    (hp : findApproval st id = some p) (hr : reasonBlank reason = true) :
    rejectUser st id reason emailOk = (.error .missingReason, st) ∧
    findApproval (rejectUser st id reason emailOk).2 id = some p := by
  have h : rejectUser st id reason emailOk = (.error .missingReason, st) := by
    simp [rejectUser, hp, hr]
  refine ⟨h, ?_⟩
  rw [h]
  exact hp

/-- Witness for C6 at a concrete store, for both a missing and an empty
reason. -/
theorem C6_reject_blank_reason_witness :
    rejectUser sampleStore 1 none true = (.error .missingReason, sampleStore) ∧
    rejectUser sampleStore 1 (some "") true =
      (.error .missingReason, sampleStore) ∧
    findApproval (rejectUser sampleStore 1 none true).2 1 =
      some sampleVerified :=
  ⟨(C6_reject_blank_reason sampleStore 1 none true sampleVerified rfl
      rfl).1,
   (C6_reject_blank_reason sampleStore 1 (some "") true sampleVerified rfl
      rfl).1,
   (C6_reject_blank_reason sampleStore 1 none true sampleVerified rfl
      rfl).2⟩

/-- C9 counterexample: with the record present and the name "" supplied in
the request body, the handler does NOT change the name or send the
name-change variant — `if (name)` is falsy for the empty string, so it
persists the record unchanged and sends the generic notification. -/
theorem C9_counterexample :
    findUser storeWithUser 5 = some sampleUser ∧
    sampleUser.name = "Alice" ∧
    updateUserDetails storeWithUser 5 (some "") true =
      (.ok .generic, storeWithUser) :=
  ⟨rfl, rfl, rfl⟩

/-- C9 amended: `updateUserDetails` looks the id up in User first, then
Approval, answering NotFound when both miss; a truthy (non-empty) supplied
name is assigned, persisted and notified with the name-change variant; a
falsy name — missing or the empty string — still persists the unchanged
record, still sends the generic profile-updated notification, and still
answers 200. -/
theorem C9_update_details_spec (st : Store) (id : Nat) :
    (findUser st id = none → findApproval st id = none →
      ∀ name emailOk,
        updateUserDetails st id name emailOk = (.error .notFound, st)) ∧
    (∀ u, findUser st id = some u → ∀ n, n ≠ "" →
      (updateUserDetails st id (some n) true).1 =
        .ok (.nameChanged u.name n) ∧
      findUser (updateUserDetails st id (some n) true).2 id =
        some { u with name := n }) ∧
    (∀ u, findUser st id = some u → ∀ name, nameBlank name = true →
      updateUserDetails st id name true = (.ok .generic, st)) ∧
    (∀ p, findUser st id = none → findApproval st id = some p →
      ∀ n, n ≠ "" →
      (updateUserDetails st id (some n) true).1 =
        .ok (.nameChanged p.name n) ∧
      findApproval (updateUserDetails st id (some n) true).2 id =
        some { p with name := n }) ∧
    (∀ p, findUser st id = none → findApproval st id = some p →
      ∀ name, nameBlank name = true →
      updateUserDetails st id name true = (.ok .generic, st)) := by
  refine ⟨?_, ?_, ?_, ?_, ?_⟩
  · intro h1 h2 name emailOk
    simp [updateUserDetails, h1, h2]
  · intro u hu n hn
    have hn2 : (n == "") = false := beq_eq_false_iff_ne.mpr hn
    refine ⟨by simp [updateUserDetails, hu, hn2], ?_⟩
    have h2 : (updateUserDetails st id (some n) true).2 =
        { st with users := st.users.map (fun e =>
            if e.1 = id then (e.1, { e.2 with name := n }) else e) } := by
      simp [updateUserDetails, hu, hn2]
    rw [h2]
    exact find?_map_update st.users id (fun q => { q with name := n }) u hu
  · intro u hu name hb
    cases name with
    | none => simp [updateUserDetails, hu]
    | some s =>
      simp only [nameBlank] at hb
      simp [updateUserDetails, hu, hb]
  · intro p h1 hp n hn
    have hn2 : (n == "") = false := beq_eq_false_iff_ne.mpr hn
    refine ⟨by simp [updateUserDetails, h1, hp, hn2], ?_⟩
    have h2 : (updateUserDetails st id (some n) true).2 =
        { st with approvals := st.approvals.map (fun e =>
            if e.1 = id then (e.1, { e.2 with name := n }) else e) } := by
      simp [updateUserDetails, h1, hp, hn2]
    rw [h2]
    exact find?_map_update st.approvals id (fun q => { q with name := n }) p hp
  · intro p h1 hp name hb
    cases name with
    | none => simp [updateUserDetails, h1, hp]
    | some s =>
      simp only [nameBlank] at hb
      simp [updateUserDetails, h1, hp, hb]

/-- Witness for C9 at concrete stores: the NotFound branch, both lookup
collections, a truthy name change, and the generic branch for both a
missing and an empty name. -/
theorem C9_update_details_spec_witness :
    updateUserDetails emptyStore 1 (some "Zoe") true =
      (.error .notFound, emptyStore) ∧
    (updateUserDetails storeWithUser 5 (some "Zoe") true).1 =
      .ok (.nameChanged "Alice" "Zoe") ∧
    updateUserDetails storeWithUser 5 none true =
      (.ok .generic, storeWithUser) ∧
    updateUserDetails storeWithUser 5 (some "") true =
      (.ok .generic, storeWithUser) ∧
    (updateUserDetails sampleStore 1 (some "Zoe") true).1 =
      .ok (.nameChanged "Alice" "Zoe") ∧
    updateUserDetails sampleStore 1 none true =
      (.ok .generic, sampleStore) :=
  ⟨(C9_update_details_spec emptyStore 1).1 rfl rfl (some "Zoe") true,
   ((C9_update_details_spec storeWithUser 5).2.1 sampleUser rfl "Zoe"
      (by decide)).1,
   (C9_update_details_spec storeWithUser 5).2.2.1 sampleUser rfl none rfl,
   (C9_update_details_spec storeWithUser 5).2.2.1 sampleUser rfl (some "")
      rfl,
   ((C9_update_details_spec sampleStore 1).2.2.2.1 sampleVerified rfl rfl
      "Zoe" (by decide)).1,
   (C9_update_details_spec sampleStore 1).2.2.2.2 sampleVerified rfl rfl
      none rfl⟩
